import Mathlib

/-!
Verification development for the hi-gcloud MCP server (TypeScript).

The TypeScript sources are shallowly embedded as executable Lean
definitions:

* JavaScript strings are modelled as `List Char` (`Str`); the string
  methods the source uses (`trim`, `toLowerCase`, `toUpperCase`,
  `startsWith`, `includes`) are reimplemented below on that type so
  that every definition evaluates inside the kernel.  `trim` removes
  the common ASCII whitespace characters and `toLowerCase`/`toUpperCase`
  handle ASCII letters, which covers every string the source compares.
* The configuration file on disk is modelled at the level of its
  JSON.parse outcome (`FileState`): the file is absent, fails to parse
  (carrying the parse-error message), or parses to a value whose four
  fields read by the code (`enabled`, `project_id`, `region`,
  `account`) are recorded together with the remaining fields
  (`extra`).  `JSON.stringify`/`JSON.parse` of the plain records the
  code writes are inverse to each other, so `writeConfig` stores the
  parsed form of the record it serializes.
* Field values are modelled by `JsVal`.  The code only ever tests
  values for strict equality with `true`/`false` and for JavaScript
  truthiness, so arrays and objects (always truthy, never inspected)
  are collapsed to the tokens `arrLike`/`objLike`.
* Subprocess results (`gcloud` invocations) are inputs of a `World`
  record: each query the code can issue is a field holding either the
  raw stdout of a successful run or the error message of a failed one.
  File writes always succeed in the model (write failures come from
  the OS and are not modelled); the corresponding dead error branches
  of the source are kept.
-/

namespace HiGcloud

/-- JavaScript strings, modelled as lists of characters. -/
abbrev Str := List Char

/-- Coerce a Lean string literal to the model's string type. -/
def s2c (s : String) : Str := s.data

/-- ASCII lower-casing of one character (JS `toLowerCase` on the
ASCII inputs the source compares against). -/
def lowerChar (c : Char) : Char :=
  if 'A' ≤ c ∧ c ≤ 'Z' then Char.ofNat (c.toNat + 32) else c

/-- ASCII upper-casing of one character (JS `toUpperCase`). -/
def upperChar (c : Char) : Char :=
  if 'a' ≤ c ∧ c ≤ 'z' then Char.ofNat (c.toNat - 32) else c

/-- JS `String.prototype.toLowerCase`. -/
def sLower (s : Str) : Str := s.map lowerChar

/-- JS `String.prototype.toUpperCase`. -/
def sUpper (s : Str) : Str := s.map upperChar

/-- Whitespace stripped by JS `trim` (ASCII subset). -/
def isWs (c : Char) : Bool := c = ' ' ∨ c = '\t' ∨ c = '\n' ∨ c = '\r'

/-- JS `String.prototype.trim`. -/
def sTrim (s : Str) : Str :=
  ((s.dropWhile isWs).reverse.dropWhile isWs).reverse

/-- JS `String.prototype.startsWith`. -/
def sStarts (s pre : Str) : Bool := pre.isPrefixOf s

/-- JS `String.prototype.includes`. -/
def sIncludes (s pat : Str) : Bool := decide (pat <:+: s)

/-- Join a list of lines with a newline (JS `Array.prototype.join('\n')`). -/
def joinLines (ls : List Str) : Str := List.intercalate (s2c "\n") ls

/-- JS truthiness of an optional string argument (`undefined` and the
empty string are falsy). -/
def truthyOptStr : Option Str → Bool
  | none => false
  | some s => !s.isEmpty

/-- JS `a || b` on optional strings. -/
def jsOr (a b : Option Str) : Option Str :=
  if truthyOptStr a then a else b

/-- Template-literal interpolation of a possibly-`undefined` string. -/
def jsShow : Option Str → Str
  | none => s2c "undefined"
  | some s => s

/-- A parsed JSON field value, observed the way the source observes
it: strict comparison with `true`/`false` and truthiness.  Arrays and
objects are never inspected beyond truthiness, so they are collapsed
to opaque tokens. -/
inductive JsVal
  | null
  | bool (b : Bool)
  | num (n : Int)
  | str (s : Str)
  | arrLike
  | objLike
deriving DecidableEq, Repr

/-- JS truthiness of an optional JSON field value (`NaN`, which is
also falsy, has no representative among the values this code writes
or compares). -/
def jsTruthy : Option JsVal → Bool
  | none => false
  | some .null => false
  | some (.bool b) => b
  | some (.num n) => n ≠ 0
  | some (.str s) => !s.isEmpty
  | some .arrLike => true
  | some .objLike => true

/-- The parsed content of `.hi-gcloud.json`: the four fields
`src/utils/config.ts` reads, plus the remaining fields (`extra`),
which the code carries around but never inspects. -/
structure RawConfig where
  enabled : Option JsVal := none
  project_id : Option JsVal := none
  region : Option JsVal := none
  account : Option JsVal := none
  extra : List (Str × JsVal) := []
deriving DecidableEq, Repr

/-- The state of the config file at its well-known path. -/
inductive FileState
  | absent
  | malformed (parseErrMsg : Str)
  | valid (cfg : RawConfig)
deriving DecidableEq, Repr

/-- The config-file path; the working-directory prefix added by
`getConfigPath` is abstracted away since no claim inspects it. -/
def configPathModel : Str := s2c ".hi-gcloud.json"

/-- `ConfigResult` from `src/utils/config.ts` (the field `exists` is
renamed `exists_`, `exists` being reserved in Lean). -/
structure ConfigResult where
  exists_ : Bool
  config : Option RawConfig := none
  path : Option Str := none
  error : Option Str := none
  disabled : Option Bool := none
deriving DecidableEq, Repr

/-- Message prefix of the malformed-JSON branch of `readConfig`. -/
def parseErrorPrefix : Str := s2c "설정 파일 파싱 오류: "

/-- Error message of the missing-`project_id` branch of `readConfig`. -/
def projectIdMissingMsg : Str := s2c "project_id가 설정되지 않았습니다."

/-- `readConfig` from `src/utils/config.ts` (lines 99-137). -/
def readConfig (file : FileState) : ConfigResult :=
  match file with
  | .absent => { exists_ := false, path := some configPathModel }
  | .malformed msg =>
      { exists_ := true, path := some configPathModel
        error := some (parseErrorPrefix ++ msg) }
  | .valid cfg =>
      if cfg.enabled = some (.bool false) then
        { exists_ := true, config := some cfg, path := some configPathModel
          disabled := some true }
      else if cfg.enabled = some (.bool true) ∧ ¬ jsTruthy cfg.project_id then
        { exists_ := true, path := some configPathModel
          error := some projectIdMissingMsg }
      else
        { exists_ := true, config := some cfg, path := some configPathModel
          disabled := some false }

/-- The `HiGcloudConfig` interface of `src/utils/config.ts`: the
records `writeConfig` serializes. -/
structure HiGcloudConfig where
  enabled : Bool
  project_id : Option Str := none
  region : Option Str := none
  account : Option Str := none
deriving DecidableEq, Repr

/-- The parsed form of the JSON that `writeConfig` writes for a given
record (`JSON.stringify` omits `undefined` fields, and parsing the
pretty-printed output recovers exactly these fields). -/
def HiGcloudConfig.toRaw (c : HiGcloudConfig) : RawConfig :=
  { enabled := some (.bool c.enabled)
    project_id := c.project_id.map .str
    region := c.region.map .str
    account := c.account.map .str
    extra := [] }

/-- Result record of `writeConfig`. -/
structure WriteResult where
  success : Bool
  path : Str
  error : Option Str := none
deriving DecidableEq, Repr

/-- `writeConfig` from `src/utils/config.ts` (lines 142-151):
overwrites the file at the well-known path with the serialized
record.  The write itself always succeeds in the model. -/
def writeConfig (c : HiGcloudConfig) (_file : FileState) :
    WriteResult × FileState :=
  ({ success := true, path := configPathModel }, .valid c.toRaw)

/-- `writeDisabledConfig` from `src/utils/config.ts` (lines 156-158). -/
def writeDisabledConfig (file : FileState) : WriteResult × FileState :=
  writeConfig { enabled := false } file

/-- The fixed tool registry of `src/index.ts` (the `tools` array),
by tool name, in source order. -/
def tools : List Str :=
  [s2c "gcp_setup", s2c "gcp_logs_read", s2c "gcp_run_status",
   s2c "gcp_run_logs", s2c "gcp_sql_query", s2c "gcp_storage_list",
   s2c "gcp_secret_list", s2c "gcp_auth_status", s2c "gcp_services_list",
   s2c "gcp_billing_info"]

/-- The list-tools request handler of `src/index.ts` (lines 56-66):
reads the config file afresh and hides the registry exactly when the
file exists and is disabled. -/
def listTools (file : FileState) : List Str :=
  let config := readConfig file
  if config.exists_ ∧ config.disabled = some true then [] else tools

/-- A sequence of list-tools requests, one per file state observed at
request time: each request re-runs `listTools` on the then-current
file, with no state carried across requests (the handler in
`src/index.ts` holds no cache). -/
def serveList (files : List FileState) : List (List Str) :=
  files.map listTools

/-- Error taxonomy of `src/utils/exec.ts`. -/
inductive GcloudErrorType
  | NOT_INSTALLED
  | NOT_AUTHENTICATED
  | NO_PROJECT
  | PERMISSION_DENIED
  | UNKNOWN
deriving DecidableEq, Repr

/-- `GcloudError` from `src/utils/exec.ts`. -/
structure GcloudError where
  type : GcloudErrorType
  message : Str
  suggestion : Str
deriving DecidableEq, Repr

/-- The NOT_INSTALLED error value of `parseGcloudError`. -/
def notInstalledError : GcloudError :=
  { type := .NOT_INSTALLED
    message := s2c "gcloud CLI가 설치되지 않았습니다."
    suggestion := s2c "https://cloud.google.com/sdk/docs/install 에서 Google Cloud SDK를 설치해주세요." }

/-- The NOT_AUTHENTICATED error value of `parseGcloudError`. -/
def notAuthenticatedError : GcloudError :=
  { type := .NOT_AUTHENTICATED
    message := s2c "GCP 인증이 필요합니다."
    suggestion := s2c "`gcloud auth login` 명령어를 실행해주세요." }

/-- The NO_PROJECT error value of `parseGcloudError`. -/
def noProjectParseError : GcloudError :=
  { type := .NO_PROJECT
    message := s2c "프로젝트가 설정되지 않았습니다."
    suggestion := s2c "project_id를 지정하거나 `gcloud config set project PROJECT_ID` 명령어를 실행해주세요." }

/-- The PERMISSION_DENIED error value of `parseGcloudError`. -/
def permissionDeniedError : GcloudError :=
  { type := .PERMISSION_DENIED
    message := s2c "권한이 없습니다."
    suggestion := s2c "필요한 IAM 역할이 부여되었는지 확인해주세요." }

/-- The UNKNOWN error value of `parseGcloudError`, carrying the raw
message. -/
def unknownError (errorMessage : Str) : GcloudError :=
  { type := .UNKNOWN
    message := errorMessage
    suggestion := s2c "오류 메시지를 확인하고 다시 시도해주세요." }

/-- `parseGcloudError` from `src/utils/exec.ts` (lines 45-85). -/
def parseGcloudError (errorMessage : Str) : GcloudError :=
  let lowerError := sLower errorMessage
  if sIncludes lowerError (s2c "command not found") ||
     sIncludes lowerError (s2c "not recognized") then
    notInstalledError
  else if sIncludes lowerError (s2c "not logged in") ||
     sIncludes lowerError (s2c "authentication") ||
     sIncludes lowerError (s2c "credentials") then
    notAuthenticatedError
  else if sIncludes lowerError (s2c "project") &&
     (sIncludes lowerError (s2c "not set") ||
      sIncludes lowerError (s2c "not specified")) then
    noProjectParseError
  else if sIncludes lowerError (s2c "permission denied") ||
     sIncludes lowerError (s2c "403") ||
     sIncludes lowerError (s2c "access denied") then
    permissionDeniedError
  else
    unknownError errorMessage

/-- The classification rules of `parseGcloudError` written the way
the spec describes them: a fixed ordered table, one row per error
kind, each row a test on the lowercased message (the NOT_INSTALLED,
NOT_AUTHENTICATED and PERMISSION_DENIED rows are disjunctions of
substring tests; the NO_PROJECT row additionally requires the
substring "project" alongside "not set" or "not specified"). -/
def errorRows : List ((Str → Bool) × GcloudError) :=
  [(fun low => sIncludes low (s2c "command not found") ||
      sIncludes low (s2c "not recognized"), notInstalledError),
   (fun low => sIncludes low (s2c "not logged in") ||
      sIncludes low (s2c "authentication") ||
      sIncludes low (s2c "credentials"), notAuthenticatedError),
   (fun low => sIncludes low (s2c "project") &&
      (sIncludes low (s2c "not set") ||
       sIncludes low (s2c "not specified")), noProjectParseError),
   (fun low => sIncludes low (s2c "permission denied") ||
      sIncludes low (s2c "403") ||
      sIncludes low (s2c "access denied"), permissionDeniedError)]

/-- First-match-wins scan of `errorRows`; no match yields UNKNOWN
carrying the raw message.  This is the spec's description of the
classifier, to be compared with `parseGcloudError`. -/
def scanErrorTable (errorMessage : Str) : GcloudError :=
  let lowerError := sLower errorMessage
  match errorRows.find? (fun row => row.1 lowerError) with
  | some row => row.2
  | none => unknownError errorMessage

/-- The ambient state a tool invocation runs against: the config file
plus the outcome of each `gcloud` query the code can issue (`.ok`
carries that query's raw stdout, `.error` the error message of a
failed run). -/
structure World where
  file : FileState := .absent
  gcloudFound : Bool := true
  authStdout : Except Str Str := .ok []
  projectStdout : Except Str Str := .ok []
  regionStdout : Except Str Str := .ok []

/-- Trace entry for the `gcloud config get-value project` lookup. -/
def projectLookupCmd : Str := s2c "config get-value project"

/-- Trace entry for the `gcloud config get-value compute/region`
lookup. -/
def regionLookupCmd : Str := s2c "config get-value compute/region"

/-- The NO_PROJECT error thrown inside `getProjectId`. -/
def noProjectLookupError : GcloudError :=
  { type := .NO_PROJECT
    message := s2c "프로젝트가 설정되지 않았습니다."
    suggestion := s2c "`gcloud config set project PROJECT_ID` 명령어를 실행해주세요." }

/-- `getProjectId` from `src/utils/exec.ts` (lines 178-206): explicit
argument if truthy, otherwise the ambient gcloud default project
(note: the config file in `w.file` is never consulted).  The second
component lists the subprocess commands invoked, in order. -/
def getProjectId (provided : Option Str) (w : World) :
    Except GcloudError Str × List Str :=
  if truthyOptStr provided then (.ok (provided.getD []), [])
  else
    match w.projectStdout with
    | .ok out =>
        let project := sTrim out
        if project.isEmpty ∨ project = s2c "(unset)" then
          (.error noProjectLookupError, [projectLookupCmd])
        else (.ok project, [projectLookupCmd])
    | .error msg => (.error (parseGcloudError msg), [projectLookupCmd])

/-- `getRegion` from `src/utils/exec.ts` (lines 211-227): explicit
argument if truthy, otherwise the ambient gcloud default region, with
`(unset)` and failures mapped to `undefined` (note: the config file
in `w.file` is never consulted). -/
def getRegion (provided : Option Str) (w : World) :
    Option Str × List Str :=
  if truthyOptStr provided then (provided, [])
  else
    match w.regionStdout with
    | .ok out =>
        let region := sTrim out
        (if ¬ region.isEmpty ∧ region ≠ s2c "(unset)" then some region
         else none, [regionLookupCmd])
    | .error _ => (none, [regionLookupCmd])

/-- `getRegion` of the divergent revision `src/unnamed/part_003`
(lines 173-193), which implements the documented precedence chain:
explicit argument, then the config file's `region` field, then the
ambient gcloud default.  The config-file value is returned as parsed
(the revision performs no further validation on it). -/
def getRegionWithConfigFallback (provided : Option Str) (w : World) :
    Option JsVal × List Str :=
  if truthyOptStr provided then (provided.map .str, [])
  else
    let configResult := readConfig w.file
    if configResult.exists_ ∧ jsTruthy (configResult.config.bind (·.region)) then
      (configResult.config.bind (·.region), [])
    else
      match w.regionStdout with
      | .ok out =>
          let region := sTrim out
          (if ¬ region.isEmpty ∧ region ≠ s2c "(unset)" then
            some (.str region)
           else none, [regionLookupCmd])
      | .error _ => (none, [regionLookupCmd])

/-- A tool handler's MCP response, collapsed to its single text block
and its `isError` flag (absence of the flag in the source is `false`). -/
structure ToolResult where
  text : Str
  isError : Bool := false
deriving DecidableEq, Repr

/-- `formatError` from `src/utils/format.ts` (lines 177-183), on a
structured `GcloudError` (whose `type` string is always truthy). -/
def formatError (e : GcloudError) : Str :=
  if ¬ e.suggestion.isEmpty then
    s2c "❌ " ++ e.message ++ s2c "\n\n💡 " ++ e.suggestion
  else
    s2c "❌ 오류: " ++ e.message

/-- Arguments of `gcp_sql_query` (`src/gcp/sql.ts`); `instance` is
reserved in Lean, hence `instance_`. -/
structure SqlArgs where
  instance_ : Str
  database : Str
  query : Str
  project_id : Option Str := none
  format : Option Str := none

/-- The mutating keywords rejected by `gcpSqlQuery`, in source order. -/
def dangerousKeywords : List Str :=
  [s2c "insert", s2c "update", s2c "delete", s2c "drop", s2c "truncate",
   s2c "alter", s2c "create", s2c "grant", s2c "revoke"]

/-- Rejection message for a query not starting with `select`. -/
def selectOnlyMsg : Str :=
  s2c "❌ 보안 제한: SELECT 쿼리만 허용됩니다.\n\nINSERT, UPDATE, DELETE, DROP 등의 쿼리는 실행할 수 없습니다."

/-- Rejection message for a query containing a mutating keyword. -/
def keywordRejectMsg (keyword : Str) : Str :=
  s2c "❌ 보안 제한: \"" ++ sUpper keyword ++
    s2c "\" 키워드가 포함된 쿼리는 실행할 수 없습니다."

/-- The advisory text `gcpSqlQuery` returns for an accepted query
(the handler is a stub: it never issues the SQL command). -/
def sqlAdvisoryText (args : SqlArgs) (safeQuery : Str) : Str :=
  s2c "⚠️ Cloud SQL 직접 연결 기능\n\n현재 구현에서는 Cloud SQL Proxy 또는 직접 연결이 필요합니다.\n\n실행하려던 쿼리:\n" ++
    safeQuery ++
    s2c "\n\n대안:\n1. Cloud SQL Studio 사용 (GCP Console)\n2. Cloud SQL Proxy 설정 후 로컬에서 연결\n3. gcloud sql connect " ++
    args.instance_ ++ s2c " --database=" ++ args.database ++
    s2c " 명령어 직접 실행"

/-- `gcpSqlQuery` from `src/gcp/sql.ts` (lines 52-119).  The second
component is the trace of subprocess commands invoked, in order
(`getProjectId` may invoke the project lookup before the query is
validated; no SQL subprocess is ever issued by this stub). -/
def gcpSqlQuery (args : SqlArgs) (w : World) : ToolResult × List Str :=
  let pr := getProjectId args.project_id w
  match pr.1 with
  | .error e => ({ text := formatError e, isError := true }, pr.2)
  | .ok _ =>
      let normalizedQuery := sLower (sTrim args.query)
      if ¬ sStarts normalizedQuery (s2c "select") then
        ({ text := selectOnlyMsg, isError := true }, pr.2)
      else
        match dangerousKeywords.find? (fun kw => sIncludes normalizedQuery kw) with
        | some kw => ({ text := keywordRejectMsg kw, isError := true }, pr.2)
        | none =>
            let safeQuery := sTrim args.query ++
              (if ¬ sIncludes normalizedQuery (s2c "limit") then
                s2c " LIMIT 100"
               else [])
            ({ text := sqlAdvisoryText args safeQuery }, pr.2)

/-- Result record of `checkGcloudAuth` (`src/utils/exec.ts`). -/
structure AuthStatus where
  authenticated : Bool
  project : Option Str := none
  account : Option Str := none
  error : Option GcloudError := none
deriving Repr

/-- `checkGcloudAuth` from `src/utils/exec.ts` (lines 128-173). -/
def checkGcloudAuth (w : World) : AuthStatus :=
  if ¬ w.gcloudFound then
    { authenticated := false, error := some notInstalledError }
  else
    match w.authStdout with
    | .error msg => { authenticated := false, error := some (parseGcloudError msg) }
    | .ok out =>
        let account := sTrim out
        if account.isEmpty then
          { authenticated := false, error := some notAuthenticatedError }
        else
          match w.projectStdout with
          | .error msg =>
              { authenticated := false, error := some (parseGcloudError msg) }
          | .ok pout =>
              let project := sTrim pout
              { authenticated := true, account := some account
                project := if project.isEmpty then none else some project }

/-- Result record of `getGcloudConfig` (`src/utils/config.ts`). -/
structure GcloudCliConfig where
  account : Option Str := none
  project : Option Str := none
  region : Option Str := none
  error : Option Str := none
deriving Repr

/-- `getGcloudConfig` from `src/utils/config.ts` (lines 171-197). -/
def getGcloudConfig (w : World) : GcloudCliConfig :=
  let authStatus := checkGcloudAuth w
  if ¬ authStatus.authenticated then
    { error := authStatus.error.map (·.message) }
  else
    let region : Option Str :=
      match w.regionStdout with
      | .ok out =>
          let r := sTrim out
          if r = s2c "(unset)" then none else some r
      | .error _ => none
    { account := authStatus.account, project := authStatus.project
      region := region }

/-- Arguments of `gcp_setup` (`src/gcp/setup.ts`, the revision kept in
`src/unnamed/part_007` lines 227-685). -/
structure SetupArgs where
  action : Option Str := none
  project_id : Option Str := none
  region : Option Str := none
  account : Option Str := none
  use_gcloud_defaults : Option Bool := none

/-- Informational message of `handleDisable` when already disabled. -/
def alreadyDisabledMsg : Str := s2c "이미 GCP가 비활성화되어 있습니다."

/-- Success message of `handleDisable` after writing the disabled
config. -/
def disableSuccessMsg : Str :=
  joinLines
    [s2c "🚫 GCP 비활성화 완료!", [],
     s2c "이 프로젝트에서 GCP 관련 기능이 비활성화되었습니다.",
     s2c "GCP 도구 호출 시 자동으로 건너뜁니다.", [],
     s2c "나중에 활성화하려면: gcp_setup(action: \"enable\")", [],
     s2c "⚠️ .gitignore에 .hi-gcloud.json 추가를 권장합니다:",
     s2c "   echo \".hi-gcloud.json\" >> .gitignore"]

/-- `handleDisable` from the setup handler (`src/unnamed/part_007`
lines 525-564). -/
def handleDisable (w : World) : ToolResult × World :=
  let existing := readConfig w.file
  if existing.disabled = some true then
    ({ text := alreadyDisabledMsg }, w)
  else
    let r := writeDisabledConfig w.file
    if ¬ r.1.success then
      ({ text := s2c "❌ 파일 생성 실패: " ++ jsShow r.1.error
         isError := true }, w)
    else
      ({ text := disableSuccessMsg }, { w with file := r.2 })

/-- Informational message of `handleEnable` when already enabled. -/
def alreadyEnabledMsg : Str :=
  s2c "이미 GCP가 활성화되어 있습니다.\n\n설정을 변경하려면: gcp_setup(action: \"update\")"

/-- The config record built by the shared create/enable construction:
gcloud defaults when `use_gcloud_defaults` is not `false` and no
explicit `project_id` is given, the explicit arguments otherwise;
falsy `region`/`account` fields are deleted before writing.  The two
handlers repeat this block verbatim, with `actionName` ("create" or
"enable") interpolated into the error messages. -/
def buildEnableConfig (actionName : Str) (args : SetupArgs) (w : World) :
    Except Str HiGcloudConfig :=
  let base : Except Str HiGcloudConfig :=
    if args.use_gcloud_defaults ≠ some false ∧ ¬ truthyOptStr args.project_id then
      let gcloudConfig := getGcloudConfig w
      if ¬ truthyOptStr gcloudConfig.project then
        .error (s2c "❌ gcloud 프로젝트가 설정되지 않았습니다.\n\nproject_id를 직접 지정해주세요:\ngcp_setup(action: \"" ++
          actionName ++ s2c "\", project_id: \"your-project-id\")")
      else
        .ok { enabled := true, project_id := gcloudConfig.project
              region := jsOr args.region gcloudConfig.region
              account := jsOr args.account gcloudConfig.account }
    else
      if ¬ truthyOptStr args.project_id then
        .error (s2c "❌ project_id가 필요합니다.\n\ngcp_setup(action: \"" ++
          actionName ++ s2c "\", project_id: \"your-project-id\")")
      else
        .ok { enabled := true, project_id := args.project_id
              region := args.region, account := args.account }
  match base with
  | .error e => .error e
  | .ok config =>
      .ok { config with
        region := if truthyOptStr config.region then config.region else none
        account := if truthyOptStr config.account then config.account else none }

/-- Success message of `handleEnable`. -/
def enableSuccessMsg (config : HiGcloudConfig) : Str :=
  joinLines
    ([s2c "✅ GCP 활성화 완료!", [], s2c "설정:",
      s2c "  📁 프로젝트: " ++ jsShow config.project_id] ++
     (if truthyOptStr config.region then
       [s2c "  🌍 리전: " ++ jsShow config.region]
      else []) ++
     (if truthyOptStr config.account then
       [s2c "  👤 계정: " ++ jsShow config.account]
      else []))

/-- `handleEnable` from the setup handler (`src/unnamed/part_007`
lines 566-647): an informational, non-error message when a usable
config already exists, otherwise the same construction as
`handleCreate` followed by `writeConfig`. -/
def handleEnable (args : SetupArgs) (w : World) : ToolResult × World :=
  let existing := readConfig w.file
  if existing.exists_ ∧ existing.disabled ≠ some true ∧ existing.config.isSome then
    ({ text := alreadyEnabledMsg }, w)
  else
    match buildEnableConfig (s2c "enable") args w with
    | .error e => ({ text := e, isError := true }, w)
    | .ok config =>
        let r := writeConfig config w.file
        if ¬ r.1.success then
          ({ text := s2c "❌ 파일 생성 실패: " ++ jsShow r.1.error
             isError := true }, w)
        else
          ({ text := enableSuccessMsg config }, { w with file := r.2 })

/-- Error message of `handleCreate` when a usable config exists. -/
def createExistsMsg : Str :=
  s2c "⚠️ .hi-gcloud.json이 이미 존재합니다.\n\n업데이트하려면 action: \"update\"를 사용하세요."

/-- Error message of `handleCreate` when the config is disabled. -/
def createDisabledMsg : Str :=
  s2c "⚠️ GCP가 비활성화되어 있습니다.\n\n활성화하려면: gcp_setup(action: \"enable\")"

/-- Success message of `handleCreate`. -/
def createSuccessMsg (config : HiGcloudConfig) : Str :=
  joinLines
    ([s2c "✅ .hi-gcloud.json 생성 완료!", [], s2c "생성된 설정:",
      s2c "  ✅ GCP 활성화: 예",
      s2c "  📁 프로젝트: " ++ jsShow config.project_id] ++
     (if truthyOptStr config.region then
       [s2c "  🌍 리전: " ++ jsShow config.region]
      else []) ++
     (if truthyOptStr config.account then
       [s2c "  👤 계정: " ++ jsShow config.account]
      else []) ++
     [[], s2c "⚠️ .gitignore에 .hi-gcloud.json 추가를 권장합니다:",
      s2c "   echo \".hi-gcloud.json\" >> .gitignore"])

/-- `handleCreate` from the setup handler (`src/unnamed/part_007`
lines 358-457).  Its config construction is the block `handleEnable`
repeats verbatim (only the error/success wording differs), embedded
here through the shared `buildEnableConfig`. -/
def handleCreate (args : SetupArgs) (w : World) : ToolResult × World :=
  let existing := readConfig w.file
  if existing.exists_ ∧ existing.disabled ≠ some true ∧ existing.config.isSome then
    ({ text := createExistsMsg, isError := true }, w)
  else if existing.disabled = some true then
    ({ text := createDisabledMsg, isError := true }, w)
  else
    match buildEnableConfig (s2c "create") args w with
    | .error e => ({ text := e, isError := true }, w)
    | .ok config =>
        let r := writeConfig config w.file
        if ¬ r.1.success then
          ({ text := s2c "❌ 파일 생성 실패: " ++ jsShow r.1.error
             isError := true }, w)
        else
          ({ text := createSuccessMsg config }, { w with file := r.2 })

/-! ## Helper lemmas -/

theorem jsTruthy_map_str (o : Option Str) :
    jsTruthy (o.map .str) = truthyOptStr o := by
  cases o <;> rfl

/-! ## Claims -/

/-- C3: `readConfig` case analysis: a missing file yields
`exists = false`; a malformed file yields `exists = true` with a
parse-error string; `enabled: false` yields `exists = true,
disabled = true` carrying the config; `enabled: true` without a
(truthy) `project_id` yields `exists = true` with an error and no
config; `enabled: true` with a `project_id` yields `exists = true,
disabled = false` carrying the config. -/
theorem readConfig_cases :
    (readConfig .absent = { exists_ := false, path := some configPathModel }) ∧
    (∀ msg, readConfig (.malformed msg) =
      { exists_ := true, path := some configPathModel
        error := some (parseErrorPrefix ++ msg) }) ∧
    (∀ cfg : RawConfig, cfg.enabled = some (.bool false) →
      readConfig (.valid cfg) =
        { exists_ := true, config := some cfg, path := some configPathModel
          disabled := some true }) ∧
    (∀ cfg : RawConfig, cfg.enabled = some (.bool true) →
      jsTruthy cfg.project_id = false →
      readConfig (.valid cfg) =
        { exists_ := true, path := some configPathModel
          error := some projectIdMissingMsg }) ∧
    (∀ cfg : RawConfig, cfg.enabled = some (.bool true) →
      jsTruthy cfg.project_id = true →
      readConfig (.valid cfg) =
        { exists_ := true, config := some cfg, path := some configPathModel
          disabled := some false }) := by
  refine ⟨rfl, fun msg => rfl, fun cfg h => ?_, fun cfg h ht => ?_,
    fun cfg h ht => ?_⟩
  · simp [readConfig, h]
  · simp [readConfig, h, ht]
  · simp [readConfig, h, ht]

/-- C3 witness: the disabled case, at a concrete config. -/
theorem readConfig_cases_witness :
    readConfig (.valid { enabled := some (.bool false) }) =
      { exists_ := true, config := some { enabled := some (.bool false) }
        path := some configPathModel, disabled := some true } :=
  readConfig_cases.2.2.1 { enabled := some (.bool false) } rfl

/-- C1: the list-tools gate returns the empty list for every parsed
config with `enabled: false`, whatever its other fields; in every
other file state (absent, malformed, or parsed with `enabled` not
strictly `false`) it returns the full registry of ten tools; and a
sequence of list requests is answered pointwise from the file state
at each request, with no state carried across requests. -/
theorem listTools_gate_spec :
    (∀ cfg : RawConfig, cfg.enabled = some (.bool false) →
      listTools (.valid cfg) = []) ∧
    (listTools .absent = tools) ∧
    (∀ msg, listTools (.malformed msg) = tools) ∧
    (∀ cfg : RawConfig, cfg.enabled ≠ some (.bool false) →
      listTools (.valid cfg) = tools) ∧
    (tools.length = 10) ∧
    (∀ hist f, serveList (hist ++ [f]) = serveList hist ++ [listTools f]) := by
  refine ⟨fun cfg h => ?_, rfl, fun msg => rfl, fun cfg h => ?_, rfl,
    fun hist f => by simp [serveList]⟩
  · simp [listTools, readConfig, h]
  · by_cases h2 : cfg.enabled = some (JsVal.bool true) ∧ jsTruthy cfg.project_id = false
    · simp [listTools, readConfig, h, h2]
    · simp [listTools, readConfig, h, h2]

/-- C1 witness: a disabled config with extra fields hides the tools. -/
theorem listTools_gate_spec_witness :
    listTools (.valid
      { enabled := some (.bool false),
        project_id := some (.str (s2c "other")),
        extra := [(s2c "k", .num 3)] }) = [] :=
  listTools_gate_spec.1 _ rfl

/-- C10: the gate fails open on malformed configuration: a file that
fails to parse, or parses with `enabled: true` but no truthy
`project_id`, never has `disabled = true` and still advertises the
full registry; the tools are hidden exactly for a file that parses
with `enabled` strictly `false`. -/
theorem gate_fails_open :
    (∀ msg, (readConfig (.malformed msg)).disabled ≠ some true ∧
      listTools (.malformed msg) = tools) ∧
    (∀ cfg : RawConfig, cfg.enabled = some (.bool true) →
      jsTruthy cfg.project_id = false →
      (readConfig (.valid cfg)).disabled ≠ some true ∧
      listTools (.valid cfg) = tools) ∧
    (∀ f, listTools f = [] ↔
      ∃ cfg, f = .valid cfg ∧ cfg.enabled = some (.bool false)) := by
  refine ⟨fun msg => ⟨by simp [readConfig], rfl⟩,
    fun cfg h ht => ⟨by simp [readConfig, h, ht], ?_⟩, fun f => ?_⟩
  · have h0 : cfg.enabled ≠ some (JsVal.bool false) := by simp [h]
    simp [listTools, readConfig, h0, h, ht]
  · constructor
    · intro h
      cases f with
      | absent => exact absurd h (by simp [listTools, readConfig, tools])
      | malformed m => exact absurd h (by simp [listTools, readConfig, tools])
      | valid cfg =>
          by_cases hc : cfg.enabled = some (JsVal.bool false)
          · exact ⟨cfg, rfl, hc⟩
          · refine absurd h ?_
            by_cases h2 : cfg.enabled = some (JsVal.bool true) ∧
                jsTruthy cfg.project_id = false
            · simp [listTools, readConfig, hc, h2, tools]
            · simp [listTools, readConfig, hc, h2, tools]
    · rintro ⟨cfg, rfl, h⟩
      simp [listTools, readConfig, h]

/-- C10 witness: an `enabled: true` config with no `project_id` still
advertises all tools. -/
theorem gate_fails_open_witness :
    (readConfig (.valid { enabled := some (.bool true) })).disabled ≠ some true ∧
    listTools (.valid { enabled := some (.bool true) }) = tools :=
  gate_fails_open.2.1 { enabled := some (.bool true) } rfl rfl

/-- C9: `parseGcloudError` is the first-match-wins scan of the fixed
ordered rule table (NOT_INSTALLED row first, then NOT_AUTHENTICATED,
then NO_PROJECT, then PERMISSION_DENIED), over the lowercased message,
with UNKNOWN carrying the raw message when no row matches; in
particular a message containing both "credentials" and "permission
denied" classifies as NOT_AUTHENTICATED, whose row comes first. -/
theorem parseGcloudError_table :
    (∀ msg, parseGcloudError msg = scanErrorTable msg) ∧
    (parseGcloudError (s2c "invalid credentials; permission denied") =
      notAuthenticatedError) ∧
    notAuthenticatedError.type = GcloudErrorType.NOT_AUTHENTICATED ∧
    (∀ msg, (scanErrorTable msg).type = .UNKNOWN →
      (scanErrorTable msg).message = msg) := by
  refine ⟨fun msg => ?_, by decide, rfl, fun msg h => ?_⟩
  · simp only [parseGcloudError, scanErrorTable, errorRows, List.find?]
    cases h1 : (sIncludes (sLower msg) (s2c "command not found") ||
        sIncludes (sLower msg) (s2c "not recognized")) <;>
    cases h2 : (sIncludes (sLower msg) (s2c "not logged in") ||
        sIncludes (sLower msg) (s2c "authentication") ||
        sIncludes (sLower msg) (s2c "credentials")) <;>
    cases h3 : (sIncludes (sLower msg) (s2c "project") &&
        (sIncludes (sLower msg) (s2c "not set") ||
         sIncludes (sLower msg) (s2c "not specified"))) <;>
    cases h4 : (sIncludes (sLower msg) (s2c "permission denied") ||
        sIncludes (sLower msg) (s2c "403") ||
        sIncludes (sLower msg) (s2c "access denied")) <;>
    simp [h1, h2, h3, h4]
  · revert h
    simp only [scanErrorTable, errorRows, List.find?]
    cases h1 : (sIncludes (sLower msg) (s2c "command not found") ||
        sIncludes (sLower msg) (s2c "not recognized")) <;>
    cases h2 : (sIncludes (sLower msg) (s2c "not logged in") ||
        sIncludes (sLower msg) (s2c "authentication") ||
        sIncludes (sLower msg) (s2c "credentials")) <;>
    cases h3 : (sIncludes (sLower msg) (s2c "project") &&
        (sIncludes (sLower msg) (s2c "not set") ||
         sIncludes (sLower msg) (s2c "not specified"))) <;>
    cases h4 : (sIncludes (sLower msg) (s2c "permission denied") ||
        sIncludes (sLower msg) (s2c "403") ||
        sIncludes (sLower msg) (s2c "access denied")) <;>
    simp [unknownError, notInstalledError, notAuthenticatedError,
      noProjectParseError, permissionDeniedError]

/-- C9 witness: an unmatched message classifies UNKNOWN with the raw
message preserved. -/
theorem parseGcloudError_table_witness :
    (scanErrorTable (s2c "boom")).type = GcloudErrorType.UNKNOWN ∧
    (scanErrorTable (s2c "boom")).message = s2c "boom" :=
  ⟨by decide, parseGcloudError_table.2.2.2 (s2c "boom") (by decide)⟩

/-- C8: a non-empty explicit argument always wins: `getProjectId` and
`getRegion` return it unchanged, with no subprocess invoked, whatever
the config file and the ambient gcloud defaults hold. -/
theorem explicit_param_overrides :
    ∀ (X : Str) (w : World), X ≠ [] →
      getProjectId (some X) w = (.ok X, []) ∧
      getRegion (some X) w = (some X, []) := by
  intro X w hX
  have ht : truthyOptStr (some X) = true := by
    simp [truthyOptStr, hX]
  exact ⟨by simp [getProjectId, ht], by simp [getRegion, ht]⟩

/-- C8 witness: explicit argument "X" at the default ambient state. -/
theorem explicit_param_overrides_witness :
    s2c "X" ≠ [] ∧
    getProjectId (some (s2c "X")) {} = (.ok (s2c "X"), []) ∧
    getRegion (some (s2c "X")) {} = (some (s2c "X"), []) :=
  ⟨by decide, (explicit_param_overrides (s2c "X") {} (by decide)).1,
    (explicit_param_overrides (s2c "X") {} (by decide)).2⟩

/-- Config file of the C2 scenario: enabled, `project_id: "Y"`,
`region: "asia-northeast3"`. -/
def c2Config : RawConfig :=
  { enabled := some (.bool true), project_id := some (.str (s2c "Y")),
    region := some (.str (s2c "asia-northeast3")) }

/-- Ambient state of the C2 scenario: the config file above exists
and the gcloud CLI default region is `us-central1`. -/
def c2World : World :=
  { file := .valid c2Config, regionStdout := .ok (s2c "us-central1\n") }

/-- C2: the resolvers of `src/utils/exec.ts` never consult the config
file: with the config file holding `region: "asia-northeast3"` and no
explicit argument, `getRegion` returns the ambient gcloud default
(`us-central1`), not `asia-northeast3`; both resolvers are invariant
under any change of the config file.  The divergent revision
`src/unnamed/part_003` (matching the README's documented priority
chain) does return the config file's region in the same state. -/
theorem getRegion_skips_config_file :
    (getRegion none c2World).1 = some (s2c "us-central1") ∧
    (getRegion none c2World).1 ≠ some (s2c "asia-northeast3") ∧
    (∀ f p, getRegion p { c2World with file := f } = getRegion p c2World) ∧
    (∀ f p, getProjectId p { c2World with file := f } = getProjectId p c2World) ∧
    (getRegionWithConfigFallback none c2World).1 =
      some (.str (s2c "asia-northeast3")) := by
  refine ⟨by decide, by decide, fun f p => rfl, fun f p => rfl, by decide⟩

/-- The trace of `gcpSqlQuery` is exactly the trace of its initial
project-id resolution: no other subprocess is ever invoked. -/
theorem gcpSqlQuery_trace (args : SqlArgs) (w : World) :
    (gcpSqlQuery args w).2 = (getProjectId args.project_id w).2 := by
  simp only [gcpSqlQuery]
  cases hp : (getProjectId args.project_id w).1 with
  | error e => rfl
  | ok pid =>
      simp only
      split
      · rfl
      · split <;> rfl

/-- Arguments of the C4 counterexample: a `DROP TABLE` query with no
explicit `project_id`. -/
def sqlDropArgs : SqlArgs :=
  { instance_ := s2c "db1", database := s2c "main",
    query := s2c "DROP TABLE users" }

/-- Ambient state of the C4 counterexample: the gcloud CLI has a
default project configured. -/
def sqlWorld : World := { projectStdout := .ok (s2c "my-proj\n") }

/-- C4 counterexample: with no explicit `project_id`, the handler
resolves the project first, so the `DROP TABLE users` rejection is
returned only after the `gcloud config get-value project` subprocess
has run — refuting "both rejections happen before any subprocess is
invoked". -/
theorem sqlQuery_lookup_precedes_rejection :
    ((gcpSqlQuery sqlDropArgs sqlWorld).1.isError = true) ∧
    ((gcpSqlQuery sqlDropArgs sqlWorld).2 = [projectLookupCmd]) ∧
    ((gcpSqlQuery sqlDropArgs sqlWorld).2 ≠ []) := by decide

/-- C4 (amended): every non-`select` query and every query containing
a mutating keyword yields an error result; the handler itself never
issues the SQL command (its only possible subprocess is the project
lookup, absent entirely when an explicit `project_id` is passed); an
accepted query with no `limit` substring gets " LIMIT 100" appended. -/
theorem sqlQuery_validation_amended :
    ∀ (args : SqlArgs) (w : World),
      (sStarts (sLower (sTrim args.query)) (s2c "select") = false →
        (gcpSqlQuery args w).1.isError = true) ∧
      (∀ kw ∈ dangerousKeywords,
        sIncludes (sLower (sTrim args.query)) kw = true →
        (gcpSqlQuery args w).1.isError = true) ∧
      (truthyOptStr args.project_id = true → (gcpSqlQuery args w).2 = []) ∧
      (∀ c ∈ (gcpSqlQuery args w).2, c = projectLookupCmd) ∧
      (∀ pid, (getProjectId args.project_id w).1 = .ok pid →
        sStarts (sLower (sTrim args.query)) (s2c "select") = true →
        (∀ kw ∈ dangerousKeywords,
          sIncludes (sLower (sTrim args.query)) kw = false) →
        sIncludes (sLower (sTrim args.query)) (s2c "limit") = false →
        (gcpSqlQuery args w).1 =
          { text := sqlAdvisoryText args (sTrim args.query ++ s2c " LIMIT 100") }) := by
  intro args w
  refine ⟨fun hstart => ?_, fun kw hmem hkw => ?_, fun ht => ?_,
    fun c hc => ?_, fun pid hp hstart hkw hlimit => ?_⟩
  · cases hp : (getProjectId args.project_id w).1 with
    | error e => simp [gcpSqlQuery, hp]
    | ok p => simp [gcpSqlQuery, hp, hstart]
  · cases hp : (getProjectId args.project_id w).1 with
    | error e => simp [gcpSqlQuery, hp]
    | ok p =>
        by_cases hstart : sStarts (sLower (sTrim args.query)) (s2c "select") = true
        · cases hf : List.find?
              (fun k => sIncludes (sLower (sTrim args.query)) k) dangerousKeywords with
          | none =>
              exact absurd hkw (by simpa using List.find?_eq_none.mp hf kw hmem)
          | some k => simp [gcpSqlQuery, hp, hstart, hf]
        · simp [gcpSqlQuery, hp, hstart]
  · rw [gcpSqlQuery_trace]
    simp [getProjectId, ht]
  · rw [gcpSqlQuery_trace] at hc
    revert hc
    simp only [getProjectId]
    by_cases ht : truthyOptStr args.project_id = true
    · simp [ht]
    · cases hps : w.projectStdout with
      | ok out =>
          simp only [ht, hps, Bool.false_eq_true, if_false]
          split <;> simp
      | error m => simp [ht, hps]
  · have hfind : List.find?
        (fun k => sIncludes (sLower (sTrim args.query)) k) dangerousKeywords = none :=
      List.find?_eq_none.mpr (fun x hx => by simp [hkw x hx])
    simp [gcpSqlQuery, hp, hstart, hfind, hlimit]

/-- Arguments of the C4 witness: an accepted `SELECT` query with an
explicit `project_id`. -/
def sqlSelectArgs : SqlArgs :=
  { instance_ := s2c "db1", database := s2c "main",
    query := s2c "SELECT * FROM users", project_id := some (s2c "p") }

/-- C4 witness: the accepted query gets " LIMIT 100" appended. -/
theorem sqlQuery_validation_amended_witness :
    (gcpSqlQuery sqlSelectArgs sqlWorld).1 =
      { text := sqlAdvisoryText sqlSelectArgs
          (sTrim (s2c "SELECT * FROM users") ++ s2c " LIMIT 100") } :=
  (sqlQuery_validation_amended sqlSelectArgs sqlWorld).2.2.2.2 (s2c "p") rfl
    (by decide) (by decide) (by decide)

/-- C6 counterexample: writing `{enabled: true}` (no `project_id`) and
reading back does not return the written content: `readConfig`
reports an error and carries no config. -/
theorem writeRead_missing_project_id :
    ((writeConfig { enabled := true } FileState.absent).2 =
      FileState.valid (HiGcloudConfig.toRaw { enabled := true })) ∧
    ((readConfig (writeConfig { enabled := true } FileState.absent).2).config =
      none) ∧
    ((readConfig (writeConfig { enabled := true } FileState.absent).2).error =
      some projectIdMissingMsg) := by decide

/-- C6 (amended): the write/read round trip returns the just-written
content for every config with `enabled: false` and every config with
`enabled: true` and a truthy `project_id`; a config written with
`enabled: true` and no truthy `project_id` reads back as an error
result; in every case the file afterwards holds exactly the written
content, independently of the previous file state (no stale cache). -/
theorem writeRead_roundtrip_amended :
    ∀ (c : HiGcloudConfig) (f : FileState),
      ((writeConfig c f).1.success = true) ∧
      ((writeConfig c f).2 = .valid c.toRaw) ∧
      (c.enabled = false →
        readConfig (writeConfig c f).2 =
          { exists_ := true, config := some c.toRaw,
            path := some configPathModel, disabled := some true }) ∧
      (c.enabled = true → truthyOptStr c.project_id = true →
        readConfig (writeConfig c f).2 =
          { exists_ := true, config := some c.toRaw,
            path := some configPathModel, disabled := some false }) ∧
      (c.enabled = true → truthyOptStr c.project_id = false →
        readConfig (writeConfig c f).2 =
          { exists_ := true, path := some configPathModel,
            error := some projectIdMissingMsg }) := by
  intro c f
  refine ⟨rfl, rfl, fun he => ?_, fun he ht => ?_, fun he ht => ?_⟩
  · simp [writeConfig, readConfig, HiGcloudConfig.toRaw, he]
  · simp [writeConfig, readConfig, HiGcloudConfig.toRaw, he,
      jsTruthy_map_str, ht]
  · simp [writeConfig, readConfig, HiGcloudConfig.toRaw, he,
      jsTruthy_map_str, ht]

/-- C6 witness: the round trip at `{enabled: false}`. -/
theorem writeRead_roundtrip_amended_witness :
    readConfig (writeConfig { enabled := false } FileState.absent).2 =
      { exists_ := true,
        config := some (HiGcloudConfig.toRaw { enabled := false }),
        path := some configPathModel, disabled := some true } :=
  (writeRead_roundtrip_amended { enabled := false } .absent).2.2.1 rfl

/-- A pre-existing disabled config that carries an extra field. -/
def preDisabledExtra : RawConfig :=
  { enabled := some (.bool false), project_id := some (.str (s2c "x")) }

/-- C7 counterexample: when the file already holds a disabled config
with additional fields, `disable` (once or twice) leaves that file
untouched, so the resulting content is not the serialized form of
exactly `{enabled: false}` — refuting the claim's parenthetical. -/
theorem disable_keeps_preexisting_file :
    ((handleDisable { file := .valid preDisabledExtra }).2.file =
      .valid preDisabledExtra) ∧
    ((handleDisable (handleDisable { file := .valid preDisabledExtra }).2).2.file =
      .valid preDisabledExtra) ∧
    (FileState.valid preDisabledExtra ≠
      .valid (HiGcloudConfig.toRaw { enabled := false })) ∧
    ((handleDisable { file := .valid preDisabledExtra }).1.isError = false) := by
  decide

/-- C7 (amended): `disable` is idempotent — both of two successive
calls return success (never an error result) and the file after the
second call is identical to the file after the first; whenever the
config was not already disabled, that content is the serialized form
of exactly `{enabled: false}` (an already-disabled file is left
untouched). -/
theorem disable_idempotent_amended :
    ∀ w : World,
      ((handleDisable w).1.isError = false) ∧
      ((handleDisable (handleDisable w).2).1.isError = false) ∧
      ((handleDisable (handleDisable w).2).2.file = (handleDisable w).2.file) ∧
      ((readConfig w.file).disabled ≠ some true →
        (handleDisable w).2.file =
          .valid (HiGcloudConfig.toRaw { enabled := false })) := by
  intro w
  by_cases hd : (readConfig w.file).disabled = some true
  · refine ⟨?_, ?_, ?_, fun h => absurd hd h⟩ <;> simp [handleDisable, hd]
  · have h1 : handleDisable w =
        ({ text := disableSuccessMsg },
         { w with file := .valid (HiGcloudConfig.toRaw { enabled := false }) }) := by
      simp [handleDisable, hd, writeDisabledConfig, writeConfig]
    refine ⟨by simp [h1], ?_, ?_, fun _ => by simp [h1]⟩
    · rw [h1]
      simp [handleDisable, readConfig, HiGcloudConfig.toRaw]
    · rw [h1]
      simp [handleDisable, readConfig, HiGcloudConfig.toRaw]

/-- C7 witness: with no config file, `disable` writes exactly the
serialized `{enabled: false}`. -/
theorem disable_idempotent_amended_witness :
    (handleDisable ({} : World)).2.file =
      .valid (HiGcloudConfig.toRaw { enabled := false }) :=
  (disable_idempotent_amended {}).2.2.2 (by decide)

/-- The create/enable construction yields the same outcome (same
config on success, an error in the same cases) whichever action name
is interpolated into its messages. -/
theorem buildEnableConfig_toOption (a b : Str) (args : SetupArgs) (w : World) :
    (buildEnableConfig a args w).toOption = (buildEnableConfig b args w).toOption := by
  simp only [buildEnableConfig]
  split_ifs <;> rfl

/-- A successfully built create/enable config is enabled and takes
its project id from the explicit argument, or from the ambient gcloud
default when none is given. -/
theorem buildEnableConfig_ok (a : Str) (args : SetupArgs) (w : World)
    (cfg : HiGcloudConfig) (h : buildEnableConfig a args w = .ok cfg) :
    cfg.enabled = true ∧
    cfg.project_id =
      (if args.use_gcloud_defaults ≠ some false ∧
          ¬ truthyOptStr args.project_id = true then
        (getGcloudConfig w).project
       else args.project_id) := by
  revert h
  simp only [buildEnableConfig]
  split_ifs with hA hB hC <;> intro h <;>
    first
      | exact h.elim
      | exact Except.noConfusion h
      | (have h2 := Except.ok.inj h
         subst h2
         exact ⟨rfl, rfl⟩)

/-- The state of the C5 counterexample: a usable enabled config
already exists. -/
def enabledWorld : World :=
  { file := .valid
      { enabled := some (.bool true),
        project_id := some (.str (s2c "p")) } }

/-- C5 counterexample: with GCP already enabled, `enable` does not
fail: it returns a result without the error flag (an informational
message) and performs no write — refuting "fails when the config file
already exists, is not disabled, and holds a usable config". -/
theorem enable_already_enabled_not_error :
    ((handleEnable {} enabledWorld).1.isError = false) ∧
    ((handleEnable {} enabledWorld).1.text = alreadyEnabledMsg) ∧
    ((handleEnable {} enabledWorld).2.file = enabledWorld.file) := by decide

/-- C5 (amended): when the config file already exists, is not
disabled, and holds a usable config, `enable` performs no write and
returns an informational non-error message; otherwise it behaves like
`create`: same error cases, same written file, the written config
being enabled with its project id from the argument or the ambient
gcloud default. -/
theorem enable_amended :
    ∀ (args : SetupArgs) (w : World),
      (((readConfig w.file).exists_ = true ∧
        (readConfig w.file).disabled ≠ some true ∧
        (readConfig w.file).config.isSome = true) →
        (handleEnable args w).1.isError = false ∧
        (handleEnable args w).1.text = alreadyEnabledMsg ∧
        (handleEnable args w).2 = w) ∧
      (¬ ((readConfig w.file).exists_ = true ∧
          (readConfig w.file).disabled ≠ some true ∧
          (readConfig w.file).config.isSome = true) →
        ((handleEnable args w).1.isError =
          (handleCreate args { w with file := .absent }).1.isError) ∧
        ((handleEnable args w).1.isError = true →
          (handleEnable args w).2 = w) ∧
        ((handleEnable args w).1.isError = false →
          (handleEnable args w).2.file =
            (handleCreate args { w with file := .absent }).2.file) ∧
        (∀ cfg, buildEnableConfig (s2c "enable") args w = .ok cfg →
          (handleEnable args w).2.file = .valid cfg.toRaw ∧
          cfg.enabled = true ∧
          cfg.project_id =
            (if args.use_gcloud_defaults ≠ some false ∧
                ¬ truthyOptStr args.project_id = true then
              (getGcloudConfig w).project
             else args.project_id))) := by
  intro args w
  constructor
  · intro h
    simp [handleEnable, h.1, h.2.1, h.2.2]
  · intro h
    have hfile : buildEnableConfig (s2c "create") args { w with file := .absent } =
        buildEnableConfig (s2c "create") args w := rfl
    have htoOpt := buildEnableConfig_toOption (s2c "create") (s2c "enable") args w
    cases hb : buildEnableConfig (s2c "enable") args w with
    | error e =>
        obtain ⟨e', he'⟩ : ∃ e',
            buildEnableConfig (s2c "create") args w = .error e' := by
          rw [hb] at htoOpt
          cases hcb : buildEnableConfig (s2c "create") args w with
          | error x => exact ⟨x, rfl⟩
          | ok x => rw [hcb] at htoOpt; simp [Except.toOption] at htoOpt
        have hAbsRead : readConfig FileState.absent =
            { exists_ := false, path := some configPathModel } := rfl
        refine ⟨?_, fun _ => ?_, fun hfalse => ?_, fun cfg hcfg => ?_⟩
        · simp [handleEnable, handleCreate, h, hb, hfile, he', hAbsRead]
        · simp [handleEnable, h, hb]
        · exact absurd hfalse (by simp [handleEnable, h, hb])
        · exact absurd hcfg (by simp)
    | ok cfg0 =>
        have hcb : buildEnableConfig (s2c "create") args w = .ok cfg0 := by
          rw [hb] at htoOpt
          cases hcb : buildEnableConfig (s2c "create") args w with
          | error x => rw [hcb] at htoOpt; simp [Except.toOption] at htoOpt
          | ok x =>
              rw [hcb] at htoOpt
              simp [Except.toOption] at htoOpt
              rw [htoOpt]
        have hAbsRead : readConfig FileState.absent =
            { exists_ := false, path := some configPathModel } := rfl
        refine ⟨?_, fun habs => ?_, fun _ => ?_, fun cfg hcfg => ?_⟩
        · simp [handleEnable, handleCreate, h, hb, hfile, hcb, hAbsRead,
            writeConfig]
        · exact absurd habs (by simp [handleEnable, h, hb, writeConfig])
        · simp [handleEnable, handleCreate, h, hb, hfile, hcb, hAbsRead,
            writeConfig]
        · have hc0 : cfg0 = cfg := Except.ok.inj hcfg
          subst hc0
          refine ⟨by simp [handleEnable, h, hb, writeConfig], ?_, ?_⟩
          · exact (buildEnableConfig_ok (s2c "enable") args w cfg0 hb).1
          · exact (buildEnableConfig_ok (s2c "enable") args w cfg0 hb).2

/-- C5 witness: the already-enabled branch at a concrete state. -/
theorem enable_amended_witness :
    (handleEnable {} enabledWorld).1.isError = false ∧
    (handleEnable {} enabledWorld).1.text = alreadyEnabledMsg ∧
    (handleEnable {} enabledWorld).2 = enabledWorld :=
  (enable_amended {} enabledWorld).1 ⟨by decide, by decide, by decide⟩

end HiGcloud
